import Mathlib

/-!
Verification of the Sparkify data-lake ETL pipeline (`dlake-project.ipynb`).

The notebook's two procedures `process_song_data` and `process_log_data` are
embedded as pure functions over lists of records.  Nullable dataframe columns
are `Option` values; SQL comparison with NULL is never true (`sqlEqStr`).
Double-typed payload columns (duration, latitude, longitude) are carried as
exact `Option Int` values: no claim computes with them, they are only
projected, compared for row equality, and passed through.

Timestamp handling (`format_datetime` / `datetime.fromtimestamp(ts/1000.0)`)
is modelled exactly at millisecond granularity: epoch seconds are the floor
of ms/1000 and the millisecond remainder becomes the microsecond field.  The
system timezone of `fromtimestamp` is an explicit offset-in-seconds
parameter `tz` threaded through the pipeline.  Calendar fields use the
standard civil-from-days algorithm; Spark's `dayofweek` is 1 = Sunday …
7 = Saturday, and `weekofyear` is the ISO-8601 week number.
-/

namespace DataLake

/-- SQL equality on nullable string columns: a comparison involving NULL is
not satisfied (tri-valued logic collapses to `false` in a filter/join). -/
def sqlEqStr : Option String → Option String → Bool
  | some a, some b => a == b
  | _, _ => false

/-- One raw song-metadata record, per `song_schema()`:
num_songs(int), artist_id(str), artist_latitude(double),
artist_longitude(double), artist_location(str), artist_name(str),
song_id(str), title(str), duration(double), year(int). -/
structure SongRecord where
  num_songs : Option Int
  artist_id : Option String
  artist_latitude : Option Int
  artist_longitude : Option Int
  artist_location : Option String
  artist_name : Option String
  song_id : Option String
  title : Option String
  duration : Option Int
  year : Option Int
deriving DecidableEq, Repr

/-- One raw usage-log record (schema inferred by `spark.read.json`). -/
structure LogRecord where
  artist : Option String
  firstName : Option String
  gender : Option String
  lastName : Option String
  level : Option String
  location : Option String
  page : Option String
  sessionId : Option Int
  song : Option String
  ts : Option Int
  userAgent : Option String
  userId : Option String
deriving DecidableEq, Repr

/-! ## Calendar arithmetic (civil-from-days, ISO week, Spark day-of-week) -/

/-- A civil (proleptic Gregorian) calendar date. -/
structure CivilDate where
  year : Int
  month : Nat
  day : Nat
deriving DecidableEq, Repr

/-- Days-since-epoch (1970-01-01) to civil date, Gregorian calendar. -/
def civilFromDays (z : Int) : CivilDate :=
  let z' := z + 719468
  let era := z'.fdiv 146097
  let doe := (z' - era * 146097).toNat
  let yoe := (doe - doe / 1460 + doe / 36524 - doe / 146096) / 365
  let y := (yoe : Int) + era * 400
  let doy := doe - (365 * yoe + yoe / 4 - yoe / 100)
  let mp := (5 * doy + 2) / 153
  let d := doy - (153 * mp + 2) / 5 + 1
  let m := if mp < 10 then mp + 3 else mp - 9
  ⟨if m ≤ 2 then y + 1 else y, m, d⟩

/-- Civil date to days-since-epoch, inverse direction of `civilFromDays`. -/
def daysFromCivil (c : CivilDate) : Int :=
  let y := if c.month ≤ 2 then c.year - 1 else c.year
  let era := y.fdiv 400
  let yoe := (y - era * 400).toNat
  let doy := (153 * (if c.month > 2 then c.month - 3 else c.month + 9) + 2) / 5
             + c.day - 1
  let doe := yoe * 365 + yoe / 4 - yoe / 100 + doy
  era * 146097 + (doe : Int) - 719468

/-- Gregorian leap-year test. -/
def isLeap (y : Int) : Bool :=
  y.emod 4 == 0 && (y.emod 100 != 0 || y.emod 400 == 0)

/-- Day of year, 1-based. -/
def dayOfYear (c : CivilDate) : Nat :=
  let cum := [0, 31, 59, 90, 120, 151, 181, 212, 243, 273, 304, 334]
  let base := cum.getD (c.month - 1) 0
  let leapAdd := if c.month > 2 && isLeap c.year then 1 else 0
  base + leapAdd + c.day

/-- Spark `dayofweek`: 1 = Sunday, …, 7 = Saturday (1970-01-01 = Thursday = 5). -/
def sparkDayofweek (c : CivilDate) : Int :=
  (daysFromCivil c + 4).emod 7 + 1

/-- Spark `weekofyear`: ISO-8601 week number, computed as the week of the
Thursday belonging to the date's ISO week. -/
def sparkWeekofyear (c : CivilDate) : Nat :=
  let days := daysFromCivil c
  let thursday := days - (days + 3).emod 7 + 3
  (dayOfYear (civilFromDays thursday) - 1) / 7 + 1

/-- Spark `dayofmonth`. -/
def sparkDayofmonth (c : CivilDate) : Nat := c.day

/-- Spark `year`. -/
def sparkYear (c : CivilDate) : Int := c.year

/-- Spark `month`. -/
def sparkMonth (c : CivilDate) : Nat := c.month

/-- Spark `hour` applied to a Date column: the date is cast to a timestamp at
local midnight, so the hour component is always 0. -/
def sparkHourOfDate (_c : CivilDate) : Nat := 0

/-- A Python `datetime` value as produced by `datetime.fromtimestamp`. -/
structure PyDatetime where
  date : CivilDate
  hour : Nat
  minute : Nat
  second : Nat
  microsecond : Nat
deriving DecidableEq, Repr

/-- `datetime.fromtimestamp(secs + usec/1e6)` under a fixed system timezone
offset `tz` (in seconds east of UTC). -/
def pyFromtimestampLocal (tz : Int) (secs : Int) (usec : Nat) : PyDatetime :=
  let localSecs := secs + tz
  let days := localSecs.fdiv 86400
  let sod := (localSecs.emod 86400).toNat
  ⟨civilFromDays days, sod / 3600, sod % 3600 / 60, sod % 60, usec⟩

/-- `format_datetime(ts)` = `datetime.fromtimestamp(ts/1000.0)`: epoch seconds
are ⌊ms/1000⌋ and the millisecond remainder becomes microseconds. -/
def format_datetime (tz : Int) (ms : Int) : PyDatetime :=
  pyFromtimestampLocal tz (ms.fdiv 1000) ((ms.emod 1000).toNat * 1000)

/-! ## Song dimension extractor (`process_song_data`) -/

/-- Row of the `songs` table: `song_id, title, artist_id, year, duration`. -/
structure SongRow where
  song_id : Option String
  title : Option String
  artist_id : Option String
  year : Option Int
  duration : Option Int
deriving DecidableEq, Repr

/-- Row of the `artists` table. -/
structure ArtistRow where
  artist_id : Option String
  artist_name : Option String
  artist_location : Option String
  artist_latitude : Option Int
  artist_longitude : Option Int
deriving DecidableEq, Repr

/-- `df.select([song_id, title, artist_id, year, duration]).distinct()
.where(col('song_id').isNotNull())`. -/
def songs_table (records : List SongRecord) : List SongRow :=
  ((records.map fun r =>
      SongRow.mk r.song_id r.title r.artist_id r.year r.duration).dedup).filter
    fun r => r.song_id.isSome

/-- `df.select([artist_id, artist_name, artist_location, artist_latitude,
artist_longitude]).distinct().where(col('artist_id').isNotNull())`. -/
def artists_table (records : List SongRecord) : List ArtistRow :=
  ((records.map fun r =>
      ArtistRow.mk r.artist_id r.artist_name r.artist_location
        r.artist_latitude r.artist_longitude).dedup).filter
    fun r => r.artist_id.isSome

/-! ## Log dimension extractor (`process_log_data`) -/

/-- `df.filter(df.page == 'NextSong')`. -/
def filterNextSong (logs : List LogRecord) : List LogRecord :=
  logs.filter fun r => sqlEqStr r.page (some "NextSong")

/-- Row of the `users` table. -/
structure UserRow where
  userId : Option String
  firstName : Option String
  lastName : Option String
  gender : Option String
  level : Option String
deriving DecidableEq, Repr

/-- `df.select([userId, firstName, lastName, gender, level]).distinct()
.where(col('userId').isNotNull())`, on the NextSong-filtered frame. -/
def users_table (logs : List LogRecord) : List UserRow :=
  (((filterNextSong logs).map fun r =>
      UserRow.mk r.userId r.firstName r.lastName r.gender r.level).dedup).filter
    fun r => r.userId.isSome

/-- A filtered log event after `withColumn("start_time", …)` and
`withColumn("datetime", …)`: the original columns plus the two derived ones.
`start_time` has Spark type Timestamp; `datetime` is declared `Date()`, so
only the calendar date survives. -/
structure TimedEvent where
  artist : Option String
  firstName : Option String
  gender : Option String
  lastName : Option String
  level : Option String
  location : Option String
  page : Option String
  sessionId : Option Int
  song : Option String
  ts : Int
  userAgent : Option String
  userId : Option String
  start_time : PyDatetime
  datetime : CivilDate
deriving DecidableEq, Repr

/-- The two udfs `get_timestamp`/`get_datetime` both evaluate
`format_datetime(int(x))` on the row's `ts`; `int(None)` raises a
TypeError, which aborts the Spark job. -/
def toTimed (tz : Int) (r : LogRecord) : Except String TimedEvent :=
  match r.ts with
  | none =>
      Except.error "TypeError: int() argument cannot be NoneType"
  | some t =>
      let st := format_datetime tz t
      Except.ok
        { artist := r.artist, firstName := r.firstName, gender := r.gender
          lastName := r.lastName, level := r.level, location := r.location
          page := r.page, sessionId := r.sessionId, song := r.song
          ts := t, userAgent := r.userAgent, userId := r.userId
          start_time := st, datetime := st.date }

/-- Row-by-row udf evaluation: the first failing row aborts the whole job
(no row is skipped). -/
def mapOrFail (f : α → Except ε β) : List α → Except ε (List β)
  | [] => Except.ok []
  | a :: l =>
      match f a with
      | Except.error e => Except.error e
      | Except.ok b => (mapOrFail f l).map fun bs => b :: bs

/-- The NextSong-filtered frame with `start_time` and `datetime` attached. -/
def timedEvents (tz : Int) (logs : List LogRecord) :
    Except String (List TimedEvent) :=
  mapOrFail (toTimed tz) (filterNextSong logs)

/-- Row of the `time` table. -/
structure TimeRow where
  ts : Int
  start_time : PyDatetime
  datetime : CivilDate
  hour : Nat
  day : Nat
  week : Nat
  year : Int
  month : Nat
  weekday : Int
deriving DecidableEq, Repr

/-- The `time` table projection of one event. -/
def timeRow (e : TimedEvent) : TimeRow :=
  ⟨e.ts, e.start_time, e.datetime, sparkHourOfDate e.datetime,
    sparkDayofmonth e.datetime, sparkWeekofyear e.datetime,
    sparkYear e.datetime, sparkMonth e.datetime, sparkDayofweek e.datetime⟩

/-- `time_table = df.select(ts, start_time, datetime, hour, day, week, year,
month, weekday).dropDuplicates()`. -/
def time_table (tz : Int) (logs : List LogRecord) :
    Except String (List TimeRow) :=
  (timedEvents tz logs).map fun evs => (evs.map timeRow).dedup

/-- The spec's `decomposeTimestamp`: all time-table fields derived from one
raw epoch-millisecond value (under the fixed system timezone `tz`). -/
def decomposeTimestamp (tz : Int) (ms : Int) : TimeRow :=
  let st := format_datetime tz ms
  ⟨ms, st, st.date, sparkHourOfDate st.date, sparkDayofmonth st.date,
    sparkWeekofyear st.date, sparkYear st.date, sparkMonth st.date,
    sparkDayofweek st.date⟩

/-! ## Fact builder (songplays join) -/

/-- Row of the `songplays` table. -/
structure SongplayRow where
  start_time : PyDatetime
  year : Int
  month : Nat
  userId : Option String
  level : Option String
  song_id : Option String
  artist_id : Option String
  sessionId : Option Int
  location : Option String
  userAgent : Option String
deriving DecidableEq, Repr

/-- Join predicate: `(song_df.title == df.song) & (song_df.artist_name ==
df.artist)`, with the redundant `.where(df.page == 'NextSong')` folded in. -/
def joinCond (s : SongRecord) (e : TimedEvent) : Bool :=
  sqlEqStr s.title e.song && sqlEqStr s.artist_name e.artist &&
    sqlEqStr e.page (some "NextSong")

/-- The `.select` list of the songplays join (Spark resolves `l.sessionID`
case-insensitively to the log column `sessionId`). -/
def mkSongplay (s : SongRecord) (e : TimedEvent) : SongplayRow :=
  ⟨e.start_time, sparkYear e.datetime, sparkMonth e.datetime, e.userId,
    e.level, s.song_id, s.artist_id, e.sessionId, e.location, e.userAgent⟩

/-- Inner join of the raw song records (left) with the event frame (right)
on `joinCond`, then the select. -/
def songplaysJoin (songs : List SongRecord) (events : List TimedEvent) :
    List SongplayRow :=
  songs.flatMap fun s =>
    events.filterMap fun e =>
      if joinCond s e then some (mkSongplay s e) else none

/-- Keep-first deduplication by a key, with the set of already-seen keys as
accumulator. -/
def dedupByKeyAux [DecidableEq κ] (key : α → κ) : List κ → List α → List α
  | _, [] => []
  | seen, a :: l =>
      if key a ∈ seen then dedupByKeyAux key seen l
      else a :: dedupByKeyAux key (key a :: seen) l

/-- `df.drop_duplicates(subset=['start_time'])`. -/
def dedupByKey [DecidableEq κ] (key : α → κ) (l : List α) : List α :=
  dedupByKeyAux key [] l

/-- The songplays fact table: the event frame is deduplicated on
`start_time`, then joined against the freshly re-read raw song records. -/
def songplays_table (tz : Int) (songs : List SongRecord)
    (logs : List LogRecord) : Except String (List SongplayRow) :=
  (timedEvents tz logs).map fun evs =>
    songplaysJoin songs (dedupByKey (fun e => e.start_time) evs)

/-! ## Output writer -/

/-- Spark `DataFrameWriter` save modes; `.parquet(path)` with no explicit
`.mode(…)` uses the default `errorIfExists`. -/
inductive SaveMode
  | errorIfExists
  | overwrite
  | append
  | ignore
deriving DecidableEq, Repr

/-- One `write…parquet(path)` call: destination subpath, `partitionBy`
columns, save mode. -/
structure TableWrite where
  table : String
  partitionBy : List String
  mode : SaveMode
deriving DecidableEq, Repr

/-- The two writes of `process_song_data`, in program order:
`songs_table.write.partitionBy('year', 'artist_id').parquet(…'songs')` and
`artists_table.write.parquet(…'artists')`. -/
def process_song_data_writes : List TableWrite :=
  [⟨"songs", ["year", "artist_id"], SaveMode.errorIfExists⟩,
   ⟨"artists", [], SaveMode.errorIfExists⟩]

/-- The three writes of `process_log_data`, in program order:
`users_table.write.parquet(…'users')`,
`time_table.write.partitionBy('year', 'month').parquet(…'time')`,
`songplays_table.write.partitionBy('year', 'month').parquet(…'songplays')`. -/
def process_log_data_writes : List TableWrite :=
  [⟨"users", [], SaveMode.errorIfExists⟩,
   ⟨"time", ["year", "month"], SaveMode.errorIfExists⟩,
   ⟨"songplays", ["year", "month"], SaveMode.errorIfExists⟩]

/-- All five table writes of one pipeline run (`main` calls
`process_song_data` then `process_log_data`). -/
def pipelineWrites : List TableWrite :=
  process_song_data_writes ++ process_log_data_writes

/-- Partition keys the pipeline uses for a given table. -/
def partitionKeysFor (t : String) : Option (List String) :=
  (pipelineWrites.find? fun w => w.table == t).map fun w => w.partitionBy

/-- Executing one write against a destination that is (`true`) or is not
(`false`) already non-empty: `errorIfExists` raises an AnalysisException on a
non-empty destination, `append` silently appends, `overwrite` replaces,
`ignore` silently does nothing. -/
def executeWrite (destNonEmpty : Bool) (w : TableWrite) : Except String Unit :=
  match w.mode with
  | SaveMode.errorIfExists =>
      if destNonEmpty then
        Except.error ("AnalysisException: path " ++ w.table ++ " already exists")
      else Except.ok ()
  | SaveMode.overwrite => Except.ok ()
  | SaveMode.append => Except.ok ()
  | SaveMode.ignore => Except.ok ()

/-! ## Supporting lemmas -/

theorem sqlEqStr_eq_false_of_ne {a : Option String} {b : String}
    (h : a ≠ some b) : sqlEqStr a (some b) = false := by
  cases a with
  | none => rfl
  | some x =>
      have hx : x ≠ b := fun hxb => h (by rw [hxb])
      simp [sqlEqStr, hx]

theorem countP_dedupByKeyAux [DecidableEq κ] (key : α → κ) (t : κ) :
    ∀ (seen : List κ) (l : List α),
    (dedupByKeyAux key seen l).countP (fun a => decide (key a = t)) =
      if t ∈ seen then 0
      else if l.any (fun a => decide (key a = t)) then 1 else 0 := by
  intro seen l
  induction l generalizing seen with
  | nil => simp [dedupByKeyAux]
  | cons a l ih =>
      simp only [dedupByKeyAux]
      by_cases hmem : key a ∈ seen
      · rw [if_pos hmem, ih seen]
        by_cases ht : t ∈ seen
        · simp [ht]
        · have hk : ¬ key a = t := fun h => ht (h ▸ hmem)
          simp [ht, List.any_cons, hk]
      · rw [if_neg hmem, List.countP_cons, ih (key a :: seen)]
        by_cases hat : key a = t
        · subst hat
          have hts : key a ∉ seen := hmem
          simp [List.mem_cons, hts, List.any_cons]
        · simp [List.mem_cons, hat, Ne.symm hat, List.any_cons]

theorem countP_dedupByKey [DecidableEq κ] (key : α → κ) (t : κ) (l : List α) :
    (dedupByKey key l).countP (fun a => decide (key a = t)) =
      if l.any (fun a => decide (key a = t)) then 1 else 0 := by
  have h := countP_dedupByKeyAux key t [] l
  simpa [dedupByKey] using h

theorem songplaysJoin_cons (s : SongRecord) (songs : List SongRecord)
    (evs : List TimedEvent) :
    songplaysJoin (s :: songs) evs =
      (evs.filterMap fun e =>
        if joinCond s e then some (mkSongplay s e) else none)
      ++ songplaysJoin songs evs := by
  simp [songplaysJoin]

theorem mem_songplaysJoin {songs : List SongRecord} {evs : List TimedEvent}
    {row : SongplayRow} :
    row ∈ songplaysJoin songs evs ↔
      ∃ s, s ∈ songs ∧ ∃ e, e ∈ evs ∧ joinCond s e = true ∧
        row = mkSongplay s e := by
  simp only [songplaysJoin, List.mem_flatMap, List.mem_filterMap]
  constructor
  · rintro ⟨s, hs, e, he, hif⟩
    by_cases hc : joinCond s e
    · exact ⟨s, hs, e, he, hc, by simpa [hc] using hif.symm⟩
    · simp [hc] at hif
  · rintro ⟨s, hs, e, he, hc, hrow⟩
    exact ⟨s, hs, e, he, by simp [hc, hrow]⟩

theorem songplaysJoin_insert_nonmatch (songs : List SongRecord)
    (pre post : List TimedEvent) (e : TimedEvent)
    (h : ∀ s ∈ songs, joinCond s e = false) :
    songplaysJoin songs (pre ++ e :: post) = songplaysJoin songs (pre ++ post) := by
  induction songs with
  | nil => simp [songplaysJoin]
  | cons s songs ih =>
      rw [songplaysJoin_cons, songplaysJoin_cons]
      rw [ih fun s' hs' => h s' (List.mem_cons_of_mem _ hs')]
      have hc : joinCond s e = false := h s (List.mem_cons_self _ _)
      rw [List.filterMap_append, List.filterMap_append, List.filterMap_cons]
      simp [hc]

theorem songplaysJoin_replicate (s : SongRecord) (e : TimedEvent)
    (hc : joinCond s e = true) :
    ∀ k : Nat, songplaysJoin (List.replicate k s) [e] =
      List.replicate k (mkSongplay s e) := by
  intro k
  induction k with
  | zero => simp [songplaysJoin]
  | succ k ih =>
      rw [List.replicate_succ, List.replicate_succ, songplaysJoin_cons, ih]
      simp [List.filterMap_cons, hc]

theorem mapOrFail_error_of_ts_none (tz : Int) :
    ∀ l : List LogRecord, (∃ r ∈ l, r.ts = none) →
    mapOrFail (toTimed tz) l =
      Except.error "TypeError: int() argument cannot be NoneType" := by
  intro l
  induction l with
  | nil => rintro ⟨r, hr, _⟩; exact absurd hr (List.not_mem_nil r)
  | cons a l ih =>
      rintro ⟨r, hr, hts⟩
      rcases List.mem_cons.1 hr with h | h
      · subst h
        simp [mapOrFail, toTimed, hts]
      · cases ha : a.ts with
        | none => simp [mapOrFail, toTimed, ha]
        | some t =>
            have htail := ih ⟨r, h, hts⟩
            simp [mapOrFail, toTimed, ha, htail, Except.map]

theorem filterNextSong_insert (pre post : List LogRecord) (r : LogRecord)
    (h : r.page ≠ some "NextSong") :
    filterNextSong (pre ++ r :: post) = filterNextSong (pre ++ post) := by
  have hf : sqlEqStr r.page (some "NextSong") = false := sqlEqStr_eq_false_of_ne h
  simp [filterNextSong, List.filter_append, hf]

/-! ## Concrete inputs for the claims -/

/-- The song record of the join-correctness property (other columns null). -/
def c1Song : SongRecord :=
  ⟨none, some "A1", none, none, none, some "Suzanne Vega",
    some "S1", some "Tom\x27s Diner", none, none⟩

/-- The qualifying log event of the join-correctness property. -/
def c1Log : LogRecord :=
  ⟨some "Suzanne Vega", none, none, none, some "free", some "LA",
    some "NextSong", some 5, some "Tom\x27s Diner",
    some 1541990258796, some "UA", some "10"⟩

/-- A raw song record whose `song_id` is null but whose title/artist match a
log event: the songplays join reads raw song metadata, so this row joins. -/
def c2Song : SongRecord :=
  ⟨none, some "A9", none, none, none, some "Singer", none, some "Tune",
    none, none⟩

/-- A qualifying log event matching `c2Song` by title/artist. -/
def c2Log : LogRecord :=
  ⟨some "Singer", none, none, none, some "free", some "LA",
    some "NextSong", some 7, some "Tune", some 0, some "UA", some "7"⟩

/-! ## Claim theorems -/

/-- C1: with the song-metadata source holding exactly the record
(title "Tom\x27s Diner", artist_name "Suzanne Vega", song_id "S1",
artist_id "A1") and the log stream holding exactly the qualifying NextSong
event, the songplays join of `process_log_data` emits exactly one record,
and it carries song_id "S1", artist_id "A1", user_id "10" — under any
system timezone. -/
theorem songplays_join_correct_single_match : ∀ tz : Int,
    (songplays_table tz [c1Song] [c1Log]).map
      (fun rows => rows.map fun r => (r.song_id, r.artist_id, r.userId)) =
    Except.ok [(some "S1", some "A1", some "10")] :=
  fun _ => rfl

/-- C2 counterexample: the join reads the raw song-metadata records, so a
record with null `song_id` whose title/artist match a qualifying event is
emitted into songplays with a null `song_id`, refuting "never emitted with
null song_id or null artist_id". -/
theorem songplays_null_key_counterexample :
    (songplays_table 0 [c2Song] [c2Log]).map
      (fun rows => rows.map fun r => r.song_id) =
    Except.ok [none] :=
  rfl

/-- C2 (amended): an event matching no song record contributes zero rows to
the songplays join, and every emitted row carries exactly the `song_id` and
`artist_id` of a song record matched to an event of the stream (those fields
are null only when the matched raw song record's field is null). -/
theorem songplays_nonmatch_excluded_and_keys_from_match :
    ∀ songs : List SongRecord,
    (∀ (pre post : List TimedEvent) (e : TimedEvent),
        (∀ s ∈ songs, joinCond s e = false) →
        songplaysJoin songs (pre ++ e :: post) =
          songplaysJoin songs (pre ++ post)) ∧
    (∀ (evs : List TimedEvent) (row : SongplayRow),
        row ∈ songplaysJoin songs evs →
        ∃ s, s ∈ songs ∧ ∃ e, e ∈ evs ∧ joinCond s e = true ∧
          row.song_id = s.song_id ∧ row.artist_id = s.artist_id) := by
  intro songs
  constructor
  · exact fun pre post e h => songplaysJoin_insert_nonmatch songs pre post e h
  · intro evs row hrow
    rcases mem_songplaysJoin.1 hrow with ⟨s, hs, e, he, hc, hrv⟩
    exact ⟨s, hs, e, he, hc, by rw [hrv]; rfl, by rw [hrv]; rfl⟩

/-- A song record used to instantiate the non-match branch of C2: its title
matches no event below. -/
def w2Song : SongRecord :=
  ⟨none, some "A1", none, none, none, some "Someone", some "S1",
    some "Other Song", none, none⟩

/-- An event that matches no song record above (different title). -/
def w2Ev : TimedEvent :=
  ⟨some "Someone", none, none, none, some "free", some "LA",
    some "NextSong", some 3, some "Tune", 0, some "UA", some "4",
    format_datetime 0 0, (format_datetime 0 0).date⟩

theorem songplays_nonmatch_excluded_witness :
    songplaysJoin [w2Song] ([] ++ w2Ev :: []) = songplaysJoin [w2Song] ([] ++ []) :=
  (songplays_nonmatch_excluded_and_keys_from_match [w2Song]).1 [] [] w2Ev
    (by decide)

/-- C3: the Songs, Artists and Users tables never contain two rows with
equal full-row content, and every row's key field (song_id / artist_id /
userId) is non-null. -/
theorem dimension_tables_nodup_and_nonnull_keys :
    ∀ (songs : List SongRecord) (logs : List LogRecord),
    (songs_table songs).Nodup ∧
    (∀ r ∈ songs_table songs, r.song_id.isSome = true) ∧
    (artists_table songs).Nodup ∧
    (∀ r ∈ artists_table songs, r.artist_id.isSome = true) ∧
    (users_table logs).Nodup ∧
    (∀ r ∈ users_table logs, r.userId.isSome = true) := by
  intro songs logs
  refine ⟨List.Nodup.filter _ (List.nodup_dedup _),
    fun r hr => (List.mem_filter.1 hr).2,
    List.Nodup.filter _ (List.nodup_dedup _),
    fun r hr => (List.mem_filter.1 hr).2,
    List.Nodup.filter _ (List.nodup_dedup _),
    fun r hr => (List.mem_filter.1 hr).2⟩

theorem dimension_tables_nodup_witness :
    (songs_table [c1Song, c1Song]).Nodup :=
  (dimension_tables_nodup_and_nonnull_keys [c1Song, c1Song] []).1

/-- C4: a log record whose `page` is not "NextSong" (including a null page)
contributes no row to the Users, Time or Songplays tables: inserting such a
record anywhere in the log input leaves all three outputs unchanged, because
every downstream step runs on the `page == 'NextSong'` filtered frame. -/
theorem non_nextsong_records_contribute_nothing :
    ∀ (tz : Int) (songs : List SongRecord) (pre post : List LogRecord)
      (r : LogRecord), r.page ≠ some "NextSong" →
    users_table (pre ++ r :: post) = users_table (pre ++ post) ∧
    time_table tz (pre ++ r :: post) = time_table tz (pre ++ post) ∧
    songplays_table tz songs (pre ++ r :: post) =
      songplays_table tz songs (pre ++ post) := by
  intro tz songs pre post r h
  have hf := filterNextSong_insert pre post r h
  refine ⟨?_, ?_, ?_⟩
  · simp only [users_table, hf]
  · simp only [time_table, timedEvents, hf]
  · simp only [songplays_table, timedEvents, hf]

/-- A log record with page "Home": retained by nothing downstream. -/
def w4Log : LogRecord :=
  ⟨some "Someone", none, none, none, some "free", some "LA",
    some "Home", some 9, some "Tune", some 1000, some "UA", some "4"⟩

theorem non_nextsong_records_contribute_nothing_witness :
    users_table ([] ++ w4Log :: []) = users_table ([] ++ []) ∧
    time_table 0 ([] ++ w4Log :: []) = time_table 0 ([] ++ []) ∧
    songplays_table 0 [] ([] ++ w4Log :: []) = songplays_table 0 [] ([] ++ []) :=
  non_nextsong_records_contribute_nothing 0 [] [] [] w4Log (by decide)

/-- C5: `decomposeTimestamp` (the `format_datetime` conversion plus the
calendar-field derivation) is a deterministic function of the raw
epoch-millisecond value under the fixed system timezone: equal inputs give
identical TimeRecords, the stored `start_time` is exactly
`format_datetime`, and `format_datetime` converts by flooring ms/1000 into
epoch seconds (the millisecond remainder becoming microseconds) before the
local-timezone civil-calendar decomposition. -/
theorem decomposeTimestamp_pure_deterministic :
    ∀ (tz m₁ m₂ : Int), m₁ = m₂ →
    decomposeTimestamp tz m₁ = decomposeTimestamp tz m₂ ∧
    (decomposeTimestamp tz m₁).start_time = format_datetime tz m₁ ∧
    (decomposeTimestamp tz m₁).ts = m₁ ∧
    format_datetime tz m₁ =
      pyFromtimestampLocal tz (m₁.fdiv 1000) ((m₁.emod 1000).toNat * 1000) := by
  intro tz m₁ m₂ h
  subst h
  exact ⟨rfl, rfl, rfl, rfl⟩

theorem decomposeTimestamp_pure_deterministic_witness :
    decomposeTimestamp 0 1541990258796 = decomposeTimestamp 0 1541990258796 ∧
    (decomposeTimestamp 0 1541990258796).start_time =
      format_datetime 0 1541990258796 ∧
    (decomposeTimestamp 0 1541990258796).ts = 1541990258796 ∧
    format_datetime 0 1541990258796 =
      pyFromtimestampLocal 0 ((1541990258796 : Int).fdiv 1000)
        (((1541990258796 : Int).emod 1000).toNat * 1000) :=
  decomposeTimestamp_pure_deterministic 0 1541990258796 1541990258796 rfl

/-- C6: the songplays pipeline feeds the join the start_time-deduplicated
event stream, and that deduplication retains exactly one event per
start_time value occurring in the stream (hence at most one overall). -/
theorem songplays_dedup_by_start_time :
    ∀ (tz : Int) (songs : List SongRecord) (logs : List LogRecord)
      (evs : List TimedEvent), timedEvents tz logs = Except.ok evs →
    songplays_table tz songs logs =
      Except.ok (songplaysJoin songs (dedupByKey (fun e => e.start_time) evs)) ∧
    ∀ t : PyDatetime,
      (dedupByKey (fun e => e.start_time) evs).countP
          (fun e => decide (e.start_time = t)) =
        if evs.any (fun e => decide (e.start_time = t)) then 1 else 0 := by
  intro tz songs logs evs h
  constructor
  · simp [songplays_table, h, Except.map]
  · exact fun t => countP_dedupByKey (fun e => e.start_time) t evs

/-- Two qualifying log events with the same timestamp (hence the same
derived start_time) and different users. -/
def w6LogA : LogRecord :=
  ⟨some "Someone", none, none, none, some "free", some "LA",
    some "NextSong", some 1, some "Tune", some 1000, some "UA", some "4"⟩

/-- Second event, identical ts, different user. -/
def w6LogB : LogRecord :=
  ⟨some "Someone", none, none, none, some "paid", some "NY",
    some "NextSong", some 2, some "Tune", some 1000, some "UA", some "5"⟩

/-- The event frame `timedEvents` derives from `[w6LogA, w6LogB]`. -/
def w6Evs : List TimedEvent :=
  [⟨some "Someone", none, none, none, some "free", some "LA",
      some "NextSong", some 1, some "Tune", 1000, some "UA", some "4",
      format_datetime 0 1000, (format_datetime 0 1000).date⟩,
   ⟨some "Someone", none, none, none, some "paid", some "NY",
      some "NextSong", some 2, some "Tune", 1000, some "UA", some "5",
      format_datetime 0 1000, (format_datetime 0 1000).date⟩]

theorem songplays_dedup_by_start_time_witness :
    (dedupByKey (fun e => e.start_time) w6Evs).countP
        (fun e => decide (e.start_time = format_datetime 0 1000)) =
      if w6Evs.any (fun e => decide (e.start_time = format_datetime 0 1000))
      then 1 else 0 :=
  (songplays_dedup_by_start_time 0 [] [w6LogA, w6LogB] w6Evs rfl).2
    (format_datetime 0 1000)

/-- C7: each run performs exactly the five table writes, in program order,
with Songs partitioned by (year, artist_id), Time and Songplays by
(year, month), and Artists and Users unpartitioned. -/
theorem write_partition_policy :
    partitionKeysFor "songs" = some ["year", "artist_id"] ∧
    partitionKeysFor "time" = some ["year", "month"] ∧
    partitionKeysFor "songplays" = some ["year", "month"] ∧
    partitionKeysFor "artists" = some [] ∧
    partitionKeysFor "users" = some [] ∧
    pipelineWrites.map (fun w => w.table) =
      ["songs", "artists", "users", "time", "songplays"] := by
  refine ⟨rfl, rfl, rfl, rfl, rfl, rfl⟩

/-- C8: every table write of the pipeline uses Spark's default
`errorIfExists` save mode, so rerunning against an already non-empty
destination raises an AnalysisException instead of silently appending or
merging. -/
theorem rerun_on_nonempty_destination_fails :
    ∀ w ∈ pipelineWrites,
    w.mode = SaveMode.errorIfExists ∧
    executeWrite true w =
      Except.error ("AnalysisException: path " ++ w.table ++ " already exists") := by
  intro w hw
  simp only [pipelineWrites, process_song_data_writes, process_log_data_writes,
    List.cons_append, List.nil_append, List.mem_cons, List.not_mem_nil,
    or_false] at hw
  rcases hw with h | h | h | h | h <;> subst h <;> exact ⟨rfl, rfl⟩

theorem rerun_on_nonempty_destination_fails_witness :
    TableWrite.mode ⟨"songs", ["year", "artist_id"], SaveMode.errorIfExists⟩ =
      SaveMode.errorIfExists ∧
    executeWrite true ⟨"songs", ["year", "artist_id"], SaveMode.errorIfExists⟩ =
      Except.error ("AnalysisException: path " ++ "songs" ++ " already exists") :=
  rerun_on_nonempty_destination_fails
    ⟨"songs", ["year", "artist_id"], SaveMode.errorIfExists⟩
    (by simp [pipelineWrites, process_song_data_writes])

/-- C9: the songplays join reads the raw, non-deduplicated song metadata: if
the source holds k exact copies of a song record matching the single
retained event, the fact table holds k rows for that one event (one per
copy), not one. -/
theorem duplicate_song_records_multiply_songplays :
    ∀ (tz : Int) (s : SongRecord) (k : Nat) (logs : List LogRecord)
      (e : TimedEvent),
    timedEvents tz logs = Except.ok [e] → joinCond s e = true →
    songplays_table tz (List.replicate k s) logs =
      Except.ok (List.replicate k (mkSongplay s e)) ∧
    (List.replicate k (mkSongplay s e)).length = k := by
  intro tz s k logs e h hc
  constructor
  · have hd : dedupByKey (fun e' : TimedEvent => e'.start_time) [e] = [e] := rfl
    simp [songplays_table, h, Except.map, hd, songplaysJoin_replicate s e hc k]
  · exact List.length_replicate k (mkSongplay s e)

/-- The song record duplicated in the C9 instantiation. -/
def w9Song : SongRecord :=
  ⟨none, some "A1", none, none, none, some "Someone", some "S1", some "Tune",
    none, none⟩

/-- A single qualifying log event matching `w9Song`. -/
def w9Log : LogRecord :=
  ⟨some "Someone", none, none, none, some "free", some "LA",
    some "NextSong", some 3, some "Tune", some 1000, some "UA", some "4"⟩

/-- The event frame derived from `[w9Log]`. -/
def w9Ev : TimedEvent :=
  ⟨some "Someone", none, none, none, some "free", some "LA",
    some "NextSong", some 3, some "Tune", 1000, some "UA", some "4",
    format_datetime 0 1000, (format_datetime 0 1000).date⟩

theorem duplicate_song_records_multiply_songplays_witness :
    songplays_table 0 (List.replicate 2 w9Song) [w9Log] =
      Except.ok (List.replicate 2 (mkSongplay w9Song w9Ev)) ∧
    (List.replicate 2 (mkSongplay w9Song w9Ev)).length = 2 :=
  duplicate_song_records_multiply_songplays 0 w9Song 2 [w9Log] w9Ev rfl rfl

/-- C10: a log record retained by the NextSong filter whose `ts` is null
makes the udf's `int(x)` raise a TypeError: the conversion aborts, the
record is not skipped, and neither the time table nor the songplays table
is produced. -/
theorem null_ts_aborts_conversion :
    ∀ (tz : Int) (songs : List SongRecord) (logs : List LogRecord),
    (∃ r ∈ filterNextSong logs, r.ts = none) →
    timedEvents tz logs =
      Except.error "TypeError: int() argument cannot be NoneType" ∧
    time_table tz logs =
      Except.error "TypeError: int() argument cannot be NoneType" ∧
    songplays_table tz songs logs =
      Except.error "TypeError: int() argument cannot be NoneType" := by
  intro tz songs logs h
  have he := mapOrFail_error_of_ts_none tz (filterNextSong logs) h
  have ht : timedEvents tz logs =
      Except.error "TypeError: int() argument cannot be NoneType" := he
  exact ⟨ht, by simp [time_table, ht, Except.map],
    by simp [songplays_table, ht, Except.map]⟩

/-- A qualifying (NextSong) log record with a null `ts`. -/
def w10Log : LogRecord :=
  ⟨some "Someone", none, none, none, some "free", some "LA",
    some "NextSong", some 3, some "Tune", none, some "UA", some "4"⟩

theorem null_ts_aborts_conversion_witness :
    timedEvents 0 [w10Log] =
      Except.error "TypeError: int() argument cannot be NoneType" ∧
    time_table 0 [w10Log] =
      Except.error "TypeError: int() argument cannot be NoneType" ∧
    songplays_table 0 [] [w10Log] =
      Except.error "TypeError: int() argument cannot be NoneType" :=
  null_ts_aborts_conversion 0 [] [w10Log] ⟨w10Log, by decide, rfl⟩

end DataLake
